import Mathlib

/-!
Verification of the momentum-app cross-application authentication handoff.

Shallow embedding of:
  - src/src/app/api/auth/verify/route.ts  (POST /api/auth/verify)
  - src/src/app/api/auth/me/route.ts      (GET /api/auth/me)
  - src/src/middleware.ts                 (route-guard middleware)
together with the semantics of the jsonwebtoken library functions the
routes call (jwt.verify and the JsonWebTokenError / TokenExpiredError
class hierarchy: TokenExpiredError extends JsonWebTokenError).

Times are epoch seconds modelled as Nat.  A JWT string is modelled
abstractly: either a well-formed token signed with some secret and
carrying a payload, or a malformed string.  Responses are records
carrying the JSON body fields, the HTTP status, and the cookie
operations performed on the response object.
-/

namespace MomentumAuth

/-- A primitive JSON value, enough to express that a payload field may be
present as a string or present as a non-string. -/
inductive JVal where
  | jstr : String → JVal
  | jnum : Int → JVal
  | jbool : Bool → JVal
  | jnull : JVal
deriving DecidableEq, Repr

/-- The `user` object inside a token payload, with each field possibly
absent (`none`) or any JSON primitive.  The TypeScript interface
`TokenPayload` declares `id/email/name : string`, but the cast
`as TokenPayload` performs no runtime check, so the embedding keeps the
raw shape. -/
structure RawUser where
  id : Option JVal
  email : Option JVal
  name : Option JVal
deriving DecidableEq, Repr

/-- Decoded JWT payload: a possibly-absent `user` object plus `exp` and
`iat` in epoch seconds (interface `TokenPayload` in both routes). -/
structure TokenPayload where
  user : Option RawUser
  exp : Nat
  iat : Nat
deriving DecidableEq, Repr

/-- A JWT string, abstractly: `signed payload secret` is a well-formed
compact token whose signature verifies exactly under `secret`;
`malformed raw` is any string that is not a well-formed token. -/
inductive Token where
  | signed : TokenPayload → String → Token
  | malformed : String → Token
deriving DecidableEq, Repr

/-- Errors thrown by `jwt.verify` of the jsonwebtoken library.
`jsonWebTokenError` is a direct `JsonWebTokenError` instance (malformed
token, invalid signature); `tokenExpiredError` is a `TokenExpiredError`.
In the library, `TokenExpiredError.prototype` is created from
`JsonWebTokenError.prototype`, i.e. TokenExpiredError extends
JsonWebTokenError. -/
inductive JwtError where
  | jsonWebTokenError
  | tokenExpiredError
deriving DecidableEq, Repr

/-- `error instanceof jwt.JsonWebTokenError`: true for both constructors,
because TokenExpiredError is a subclass of JsonWebTokenError. -/
def JwtError.instanceOfJsonWebTokenError : JwtError → Bool
  | _ => true

/-- `error instanceof jwt.TokenExpiredError`. -/
def JwtError.instanceOfTokenExpiredError : JwtError → Bool
  | .tokenExpiredError => true
  | .jsonWebTokenError => false

/-- Semantics of `jwt.verify(token, secret)` called at clock time `now`
(epoch seconds), default options: a malformed string or a signature
mismatch throws a JsonWebTokenError; otherwise, with the default clock
tolerance of 0, the library throws TokenExpiredError when
`clockTimestamp >= payload.exp`; otherwise it returns the decoded
payload. -/
def jwtVerify (tok : Token) (secret : String) (now : Nat) :
    Except JwtError TokenPayload :=
  match tok with
  | .malformed _ => .error .jsonWebTokenError
  | .signed payload sigSecret =>
    if sigSecret ≠ secret then .error .jsonWebTokenError
    else if payload.exp ≤ now then .error .tokenExpiredError
    else .ok payload

/-- True when `jwt.verify` would throw. -/
def jwtFails (tok : Token) (secret : String) (now : Nat) : Bool :=
  match jwtVerify tok secret now with
  | .ok _ => false
  | .error _ => true

/-- JavaScript truthiness of an optional string (`undefined` and the
empty string are falsy). -/
def truthyS : Option String → Bool
  | none => false
  | some s => s ≠ ""

/-- A `Set-Cookie` issued through `response.cookies.set`, with the
attribute record passed in the source. -/
structure CookieSet where
  name : String
  value : Token
  httpOnly : Bool
  secure : Bool
  sameSite : String
  maxAge : Nat
  path : String
deriving DecidableEq, Repr

/-- Response of POST /api/auth/verify: HTTP status, JSON body fields
(`success`, optional `error` string, the `user` value when present), and
the cookie set on the response object (none on the failure branches). -/
structure VerifyResponse where
  status : Nat
  success : Bool
  error : Option String
  user : Option RawUser
  setCookie : Option CookieSet
deriving DecidableEq, Repr

/-- POST /api/auth/verify (src/src/app/api/auth/verify/route.ts).
`body` is the `token` field of the request body, `none` when absent or
falsy; `jwtSecret` is `process.env.JWT_SECRET` at module load.  The
catch block tests `instanceof jwt.JsonWebTokenError` before
`instanceof jwt.TokenExpiredError`, exactly as in the source. -/
def verifyPOST (body : Option Token) (jwtSecret : Option String) (now : Nat) :
    VerifyResponse :=
  match body with
  | none => ⟨400, false, some "Token is required", none, none⟩
  | some token =>
    if truthyS jwtSecret = false then
      ⟨500, false, some "Server configuration error", none, none⟩
    else
      match jwtVerify token (jwtSecret.getD "") now with
      | .ok decoded =>
        ⟨200, true, none, decoded.user,
          some ⟨"auth_token", token, true, false, "lax", 60 * 60 * 24 * 7, "/"⟩⟩
      | .error e =>
        if e.instanceOfJsonWebTokenError then
          ⟨401, false, some "Invalid token signature", none, none⟩
        else if e.instanceOfTokenExpiredError then
          ⟨401, false, some "Token has expired", none, none⟩
        else
          ⟨401, false, some "Token verification failed", none, none⟩

/-- Response of GET /api/auth/me: HTTP status, JSON body fields, and the
names of cookies deleted on the response (the route performs no cookie
mutation on any branch, so this list is empty everywhere). -/
structure MeResponse where
  status : Nat
  error : Option String
  user : Option RawUser
  deletedCookies : List String
deriving DecidableEq, Repr

/-- Look up a cookie by name in a request cookie jar. -/
def cookieLookup (jar : List (String × Token)) (name : String) : Option Token :=
  (jar.find? (fun p => p.1 = name)).map (fun p => p.2)

/-- GET /api/auth/me (src/src/app/api/auth/me/route.ts).  Reads the
`auth_token` cookie from the request jar; the catch block again tests
`instanceof jwt.JsonWebTokenError` before `instanceof
jwt.TokenExpiredError`. -/
def meGET (jar : List (String × Token)) (jwtSecret : Option String) (now : Nat) :
    MeResponse :=
  match cookieLookup jar "auth_token" with
  | none => ⟨401, some "Not authenticated", none, []⟩
  | some token =>
    if truthyS jwtSecret = false then
      ⟨500, some "Server configuration error", none, []⟩
    else
      match jwtVerify token (jwtSecret.getD "") now with
      | .ok decoded => ⟨200, none, decoded.user, []⟩
      | .error e =>
        if e.instanceOfJsonWebTokenError then
          ⟨401, some "Invalid token", none, []⟩
        else if e.instanceOfTokenExpiredError then
          ⟨401, some "Token expired", none, []⟩
        else
          ⟨401, some "Authentication failed", none, []⟩

/-- MARKETING_ROUTES.LOGIN from the route constants module. -/
def MARKETING_ROUTES_LOGIN : String := "https://trymomentum.ai/login"

/-- The part of a NextRequest the middleware reads: the URL pathname,
the cookie header (name/value pairs, values as raw strings), and the
request headers. -/
structure MwRequest where
  pathname : String
  cookies : List (String × String)
  headers : List (String × String)
deriving DecidableEq, Repr

/-- Middleware outcome: `NextResponse.next()` or
`NextResponse.redirect(url)`. -/
inductive MwResult where
  | next
  | redirect : String → MwResult
deriving DecidableEq, Repr

/-- JavaScript `String.prototype.startsWith`: character-wise prefix
test. -/
def strStartsWith (s pre : String) : Bool := pre.data.isPrefixOf s.data

/-- `request.cookies.get(name)?.value`. -/
def getCookieValue (cookies : List (String × String)) (name : String) :
    Option String :=
  (cookies.find? (fun p => p.1 = name)).map (fun p => p.2)

/-- `request.headers.get(name)`. -/
def getHeader (headers : List (String × String)) (name : String) :
    Option String :=
  (headers.find? (fun p => p.1 = name)).map (fun p => p.2)

/-- The route-guard middleware (src/src/middleware.ts): skips
`/dashboard/auth`, and on any other `/dashboard*` path redirects to the
marketing login page unless a truthy `momentum_auth_token` cookie or a
truthy `x-momentum-auth` header is present. -/
def middleware (req : MwRequest) : MwResult :=
  if req.pathname = "/dashboard/auth" then .next
  else if strStartsWith req.pathname "/dashboard" then
    let authToken := getCookieValue req.cookies "momentum_auth_token"
    let authHeader := getHeader req.headers "x-momentum-auth"
    if truthyS authToken = false ∧ truthyS authHeader = false then
      .redirect MARKETING_ROUTES_LOGIN
    else .next
  else .next

/-- The cookie jar a client holds after receiving a verify response:
the single cookie set by the response, if any. -/
def respCookieJar (r : VerifyResponse) : List (String × Token) :=
  match r.setCookie with
  | some c => [(c.name, c.value)]
  | none => []

/-- Client-side state across handoff invocations: the cookie jar. -/
structure ClientState where
  jar : List (String × Token)
deriving DecidableEq, Repr

/-- Store a cookie in a jar, replacing any previous cookie of the same
name (last write wins at the client). -/
def setJarCookie (jar : List (String × Token)) (name : String) (v : Token) :
    List (String × Token) :=
  (name, v) :: jar.filter (fun p => p.1 ≠ name)

/-- Apply the cookie effect of a verify response to the client state. -/
def applyResponse (st : ClientState) (r : VerifyResponse) : ClientState :=
  match r.setCookie with
  | none => st
  | some c => ⟨setJarCookie st.jar c.name c.value⟩

/-- One invocation of the handoff verification: the server handler reads
only the request body, the secret and the clock (it never reads the
request cookies), and the client then applies the Set-Cookie of the
response. -/
def handoffStep (st : ClientState) (body : Option Token)
    (jwtSecret : Option String) (now : Nat) : VerifyResponse × ClientState :=
  (verifyPOST body jwtSecret now, applyResponse st (verifyPOST body jwtSecret now))

/-- Whether a JSON value is a string. -/
def JVal.isString : JVal → Bool
  | .jstr _ => true
  | _ => false

/-- Whether an optional JSON value is present and a string. -/
def optIsString : Option JVal → Bool
  | some v => v.isString
  | none => false

/-- The payload condition of claim C3, in the words of the spec: the
`user` object, or `user.id`, `user.email`, or `user.name`, is missing,
or one of these fields is not a string. -/
def specMalformedUser : Option RawUser → Bool
  | none => true
  | some r => !optIsString r.id || !optIsString r.email || !optIsString r.name

/-- A sample well-formed user object for concrete witnesses. -/
def sampleUser : RawUser :=
  ⟨some (.jstr "user-1"), some (.jstr "u@example.com"), some (.jstr "User One")⟩

/-- A sample payload valid at clock time 1500 (exp = 2000). -/
def samplePayload : TokenPayload := ⟨some sampleUser, 2000, 1000⟩

/-- A sample payload already expired at clock time 1000 (exp = 999). -/
def expiredPayload : TokenPayload := ⟨some sampleUser, 999, 500⟩

/-- A sample payload with no `user` object at all (exp = 2000). -/
def userlessPayload : TokenPayload := ⟨none, 2000, 1000⟩

/-! ## Theorems -/

/-- C1: for every token validly signed under the configured shared
secret and not expired at the current time, POST /api/auth/verify
returns status 200 with `success = true` and a `user` field equal to
the user object embedded in the token payload (and sets the session
cookie carrying the token). -/
theorem verify_valid_token_returns_embedded_identity
    (payload : TokenPayload) (s : String) (now : Nat)
    (hs : s ≠ "") (hexp : now < payload.exp) :
    verifyPOST (some (.signed payload s)) (some s) now =
      ⟨200, true, none, payload.user,
        some ⟨"auth_token", .signed payload s, true, false, "lax", 604800, "/"⟩⟩ := by
  simp [verifyPOST, jwtVerify, truthyS, hs, Nat.not_le_of_lt hexp]

/-- Witness for C1 at a concrete valid token. -/
theorem verify_valid_token_returns_embedded_identity_witness :
    ("secret" ≠ "") ∧ 1500 < samplePayload.exp ∧
    verifyPOST (some (.signed samplePayload "secret")) (some "secret") 1500 =
      ⟨200, true, none, samplePayload.user,
        some ⟨"auth_token", .signed samplePayload "secret", true, false, "lax",
          604800, "/"⟩⟩ :=
  ⟨by decide, by decide,
    verify_valid_token_returns_embedded_identity samplePayload "secret" 1500
      (by decide) (by decide)⟩

/-- C2 (code bug): a token that is validly signed but expired
(exp = 999 at clock 1000) is answered with the error string
"Invalid token signature", not "Token has expired": in the catch block
the test `error instanceof jwt.JsonWebTokenError` precedes the test
`error instanceof jwt.TokenExpiredError`, and TokenExpiredError is a
subclass of JsonWebTokenError, so the expired branch is unreachable. -/
theorem verify_expired_token_reports_invalid_signature :
    verifyPOST (some (.signed expiredPayload "secret")) (some "secret") 1000 =
      ⟨401, false, some "Invalid token signature", none, none⟩ := by
  decide

/-- C3 counterexample: a validly signed, unexpired token whose payload
has no `user` object at all (so `user.id`, `user.email`, `user.name`
are all missing) is answered with `success = true` and status 200 — the
route casts the decoded payload without any shape validation, so it
does not fail with a MalformedPayload error as the claim states. -/
theorem verify_missing_user_fields_still_succeeds_cx :
    (verifyPOST (some (.signed userlessPayload "secret")) (some "secret") 1500).success
        = true ∧
    (verifyPOST (some (.signed userlessPayload "secret")) (some "secret") 1500).status
        = 200 := by
  decide

/-- C3 amended: the verify route performs no payload-shape validation:
every validly signed, unexpired token is answered with `success = true`
and a `user` field equal to the decoded payload user value verbatim,
even when the user object or its `id`, `email` or `name` fields are
missing or not strings. -/
theorem verify_returns_decoded_user_without_shape_validation
    (payload : TokenPayload) (s : String) (now : Nat)
    (hs : s ≠ "") (hexp : now < payload.exp)
    (hmal : specMalformedUser payload.user = true) :
    (verifyPOST (some (.signed payload s)) (some s) now).success = true ∧
    (verifyPOST (some (.signed payload s)) (some s) now).user = payload.user := by
  simp [verifyPOST, jwtVerify, truthyS, hs, Nat.not_le_of_lt hexp]

/-- Witness for the amended C3 at a concrete token with no user
object. -/
theorem verify_returns_decoded_user_without_shape_validation_witness :
    ("secret" ≠ "") ∧ 1500 < userlessPayload.exp ∧
    specMalformedUser userlessPayload.user = true ∧
    (verifyPOST (some (.signed userlessPayload "secret")) (some "secret") 1500).success
        = true ∧
    (verifyPOST (some (.signed userlessPayload "secret")) (some "secret") 1500).user
        = userlessPayload.user :=
  ⟨by decide, by decide, by decide, by
    have h := verify_returns_decoded_user_without_shape_validation
      userlessPayload "secret" 1500 (by decide) (by decide) (by decide)
    exact h.1, by
    have h := verify_returns_decoded_user_without_shape_validation
      userlessPayload "secret" 1500 (by decide) (by decide) (by decide)
    exact h.2⟩

/-- C4: round trip — for every identity payload, a successful
verification (which materializes the session cookie) followed by
GET /api/auth/me on a request carrying exactly that cookie, at the same
clock time and under the same secret, returns status 200 with the same
embedded user object. -/
theorem materialize_then_read_round_trip
    (payload : TokenPayload) (s : String) (now : Nat)
    (hs : s ≠ "") (hexp : now < payload.exp) :
    meGET (respCookieJar (verifyPOST (some (.signed payload s)) (some s) now))
        (some s) now =
      ⟨200, none, payload.user, []⟩ := by
  simp [verifyPOST, jwtVerify, truthyS, hs, Nat.not_le_of_lt hexp,
    respCookieJar, meGET, cookieLookup]

/-- Witness for C4 at a concrete valid token. -/
theorem materialize_then_read_round_trip_witness :
    ("secret" ≠ "") ∧ 1500 < samplePayload.exp ∧
    meGET (respCookieJar
        (verifyPOST (some (.signed samplePayload "secret")) (some "secret") 1500))
        (some "secret") 1500 =
      ⟨200, none, samplePayload.user, []⟩ :=
  ⟨by decide, by decide,
    materialize_then_read_round_trip samplePayload "secret" 1500
      (by decide) (by decide)⟩

/-- C5 (code bug): the session cookie issued by a successful
verification has name auth_token, HttpOnly, SameSite=Lax, Path=/ and
Max-Age 604800 as claimed, but its Secure flag is hardcoded to `false`
regardless of environment — the source writes `secure: false` where the
claim (and the repository requirements document) calls for the Secure
flag in production. -/
theorem verify_cookie_attributes_secure_false :
    (verifyPOST (some (.signed samplePayload "secret")) (some "secret") 1500).setCookie
      = some ⟨"auth_token", .signed samplePayload "secret", true, false, "lax",
          604800, "/"⟩ := by
  decide

/-- C6 counterexample: a request to the protected path
/dashboard/settings carrying no cookies at all — in particular no
session-artifact cookie — but carrying an x-momentum-auth header is
allowed through by the middleware (`NextResponse.next()`), not
redirected, refuting the claim that such requests are never allowed
through. -/
theorem guard_allows_header_only_request_cx :
    middleware ⟨"/dashboard/settings", [], [("x-momentum-auth", "header-token")]⟩
      = .next := by
  decide

/-- C6 amended: for every request whose path starts with /dashboard,
is not exactly /dashboard/auth, and carries neither a truthy
momentum_auth_token cookie nor a truthy x-momentum-auth header, the
middleware redirects to the external marketing login origin. -/
theorem guard_redirects_without_cookie_or_header (req : MwRequest)
    (hpath : strStartsWith req.pathname "/dashboard" = true)
    (hauth : req.pathname ≠ "/dashboard/auth")
    (hcookie : truthyS (getCookieValue req.cookies "momentum_auth_token") = false)
    (hheader : truthyS (getHeader req.headers "x-momentum-auth") = false) :
    middleware req = .redirect MARKETING_ROUTES_LOGIN := by
  simp [middleware, hpath, hauth, hcookie, hheader]

/-- Witness for the amended C6: a bare request to /dashboard/settings
with no cookies and no headers is redirected. -/
theorem guard_redirects_without_cookie_or_header_witness :
    strStartsWith "/dashboard/settings" "/dashboard" = true ∧
    "/dashboard/settings" ≠ "/dashboard/auth" ∧
    middleware ⟨"/dashboard/settings", [], []⟩ = .redirect MARKETING_ROUTES_LOGIN :=
  ⟨by decide, by decide,
    guard_redirects_without_cookie_or_header ⟨"/dashboard/settings", [], []⟩
      (by decide) (by decide) (by decide) (by decide)⟩

/-- C7 counterexample: GET /api/auth/me on a request whose auth_token
cookie holds a validly signed but expired token returns 401, yet
performs no cookie mutation at all (`deletedCookies = []`) — the route
never clears the stale session cookie, refuting that part of the
claim.  (The error string is also "Invalid token" rather than
"Token expired", by the same subclass-ordering bug as in C2.) -/
theorem me_expired_does_not_clear_cookie_cx :
    meGET [("auth_token", .signed expiredPayload "secret")] (some "secret") 1000 =
      ⟨401, some "Invalid token", none, []⟩ := by
  decide

/-- C7 amended: on any validation failure of the session artifact —
cookie missing, token expired, or token invalid — GET /api/auth/me
returns a 401 JSON result (never a thrown exception) with no user, but
it does not clear the stale session cookie (no cookie mutation occurs);
and when the shared secret is misconfigured while a cookie is present,
it returns a 500 JSON response rather than throwing. -/
theorem me_validation_failure_returns_401_no_cookie_clear
    (jar : List (String × Token)) (s : String) (now : Nat)
    (hs : s ≠ "")
    (hfail : ∀ tok, cookieLookup jar "auth_token" = some tok →
      jwtFails tok s now = true) :
    (meGET jar (some s) now).status = 401 ∧
    (meGET jar (some s) now).user = none ∧
    (meGET jar (some s) now).deletedCookies = [] ∧
    (∀ tok, cookieLookup jar "auth_token" = some tok →
      (meGET jar none now).status = 500 ∧ (meGET jar none now).deletedCookies = []) := by
  cases h : cookieLookup jar "auth_token" with
  | none =>
    refine ⟨?_, ?_, ?_, ?_⟩ <;> simp [meGET, h]
  | some tok =>
    have hf := hfail tok h
    unfold jwtFails at hf
    cases hv : jwtVerify tok s now with
    | ok p => rw [hv] at hf; simp at hf
    | error e =>
      cases e <;>
        refine ⟨?_, ?_, ?_, ?_⟩ <;>
          simp [meGET, h, truthyS, hs, hv, JwtError.instanceOfJsonWebTokenError]

/-- Witness for the amended C7: the concrete expired-token request. -/
theorem me_validation_failure_returns_401_no_cookie_clear_witness :
    (meGET [("auth_token", .signed expiredPayload "secret")] (some "secret") 1000).status
        = 401 ∧
    (meGET [("auth_token", .signed expiredPayload "secret")] (some "secret") 1000).user
        = none ∧
    (meGET [("auth_token", .signed expiredPayload "secret")] (some "secret") 1000).deletedCookies
        = [] ∧
    (∀ tok, cookieLookup [("auth_token", Token.signed expiredPayload "secret")]
        "auth_token" = some tok →
      (meGET [("auth_token", Token.signed expiredPayload "secret")] none 1000).status = 500 ∧
      (meGET [("auth_token", Token.signed expiredPayload "secret")] none 1000).deletedCookies
          = []) :=
  me_validation_failure_returns_401_no_cookie_clear
    [("auth_token", Token.signed expiredPayload "secret")] "secret" 1000
    (by decide)
    (fun tok h => by
      have h2 : some (Token.signed expiredPayload "secret") = some tok := h
      cases h2
      decide)

/-- Helper: storing a cookie with the same name and value twice leaves
the jar as after storing it once. -/
theorem setJarCookie_idem (jar : List (String × Token)) (name : String) (v : Token) :
    setJarCookie (setJarCookie jar name v) name v = setJarCookie jar name v := by
  simp [setJarCookie, List.filter_filter]

/-- Helper: whenever the verify route sets a cookie, that cookie is
named auth_token, its value is the token received in the request body,
and its attributes are exactly those written in the source. -/
theorem verify_setCookie_shape (body : Option Token) (sec : Option String)
    (now : Nat) (c : CookieSet)
    (h : (verifyPOST body sec now).setCookie = some c) :
    body = some c.value ∧ c.name = "auth_token" ∧ c.httpOnly = true ∧
    c.secure = false ∧ c.sameSite = "lax" ∧ c.maxAge = 604800 ∧ c.path = "/" := by
  cases body with
  | none => simp [verifyPOST] at h
  | some token =>
    by_cases hsec : truthyS sec = false
    · simp [verifyPOST, hsec] at h
    · cases hv : jwtVerify token (sec.getD "") now with
      | ok d =>
        simp [verifyPOST, hsec, hv] at h
        subst h
        simp
      | error e =>
        cases e <;>
          simp [verifyPOST, hsec, hv, JwtError.instanceOfJsonWebTokenError] at h

/-- C8: idempotence of the handoff — for a fixed token and a fixed
clock time at which the token still verifies, running the verify
handler twice in sequence (the second request made from the client
state left by the first) yields the same response both times and the
same final client state as after one invocation; the handler reads no
client state and verification has no server-side effect. -/
theorem handoff_replay_same_outcome
    (st0 : ClientState) (tok : Token) (jwtSecret : Option String) (now : Nat)
    (hvalid : (verifyPOST (some tok) jwtSecret now).success = true) :
    (handoffStep (handoffStep st0 (some tok) jwtSecret now).2
        (some tok) jwtSecret now).1 =
      (handoffStep st0 (some tok) jwtSecret now).1 ∧
    (handoffStep (handoffStep st0 (some tok) jwtSecret now).2
        (some tok) jwtSecret now).2 =
      (handoffStep st0 (some tok) jwtSecret now).2 := by
  refine ⟨rfl, ?_⟩
  cases hc : (verifyPOST (some tok) jwtSecret now).setCookie with
  | none => simp [handoffStep, applyResponse, hc]
  | some c => simp [handoffStep, applyResponse, hc, setJarCookie_idem]

/-- Witness for C8 at a concrete valid token and empty initial jar. -/
theorem handoff_replay_same_outcome_witness :
    (verifyPOST (some (.signed samplePayload "secret")) (some "secret") 1500).success
        = true ∧
    ((handoffStep (handoffStep ⟨[]⟩ (some (.signed samplePayload "secret"))
          (some "secret") 1500).2
        (some (.signed samplePayload "secret")) (some "secret") 1500).1 =
      (handoffStep ⟨[]⟩ (some (.signed samplePayload "secret"))
          (some "secret") 1500).1 ∧
    (handoffStep (handoffStep ⟨[]⟩ (some (.signed samplePayload "secret"))
          (some "secret") 1500).2
        (some (.signed samplePayload "secret")) (some "secret") 1500).2 =
      (handoffStep ⟨[]⟩ (some (.signed samplePayload "secret"))
          (some "secret") 1500).2) :=
  ⟨by decide,
    handoff_replay_same_outcome ⟨[]⟩ (.signed samplePayload "secret")
      (some "secret") 1500 (by decide)⟩

/-- C9: the verify route issues its session cookie under the name
auth_token, while the middleware looks only for a momentum_auth_token
cookie or an x-momentum-auth header; hence every request to a protected
path carrying only the verify-issued auth_token cookie (and no headers)
is redirected to the external login origin rather than allowed
through. -/
theorem auth_cookie_does_not_satisfy_guard
    (p v : String)
    (hp : strStartsWith p "/dashboard" = true)
    (ha : p ≠ "/dashboard/auth") :
    middleware ⟨p, [("auth_token", v)], []⟩ = .redirect MARKETING_ROUTES_LOGIN ∧
    ∀ (body : Option Token) (sec : Option String) (now : Nat) (c : CookieSet),
      (verifyPOST body sec now).setCookie = some c → c.name = "auth_token" := by
  constructor
  · simp [middleware, hp, ha, getCookieValue, getHeader, truthyS]
  · intro body sec now c h
    exact (verify_setCookie_shape body sec now c h).2.1

/-- Witness for C9 at the concrete path /dashboard/settings. -/
theorem auth_cookie_does_not_satisfy_guard_witness :
    strStartsWith "/dashboard/settings" "/dashboard" = true ∧
    "/dashboard/settings" ≠ "/dashboard/auth" ∧
    middleware ⟨"/dashboard/settings", [("auth_token", "jwt-string")], []⟩
      = .redirect MARKETING_ROUTES_LOGIN :=
  ⟨by decide, by decide,
    (auth_cookie_does_not_satisfy_guard "/dashboard/settings" "jwt-string"
      (by decide) (by decide)).1⟩

/-- C10: the session artifact stores the received token verbatim — any
cookie set by the verify route has the request body token as its value
(with the fixed 7-day Max-Age) — and the session reader re-validates it
in full on read, so once the token expiry has passed GET /api/auth/me
answers 401 with no user, regardless of the 604800-second Max-Age. -/
theorem cookie_stores_token_verbatim_and_expiry_enforced_on_read
    (s : String) (now readTime : Nat) (payload : TokenPayload)
    (hs : s ≠ "") (hlate : payload.exp ≤ readTime) :
    (∀ (body : Option Token) (c : CookieSet),
      (verifyPOST body (some s) now).setCookie = some c →
        body = some c.value ∧ c.maxAge = 604800) ∧
    (meGET [("auth_token", .signed payload s)] (some s) readTime).status = 401 ∧
    (meGET [("auth_token", .signed payload s)] (some s) readTime).user = none := by
  refine ⟨fun body c h => ⟨(verify_setCookie_shape _ _ _ _ h).1,
      (verify_setCookie_shape _ _ _ _ h).2.2.2.2.2.1⟩, ?_, ?_⟩ <;>
    simp [meGET, cookieLookup, truthyS, hs, jwtVerify, hlate,
      JwtError.instanceOfJsonWebTokenError]

/-- Witness for C10: concrete secret and a token already expired at the
read time. -/
theorem cookie_stores_token_verbatim_and_expiry_enforced_on_read_witness :
    ("secret" ≠ "") ∧ expiredPayload.exp ≤ 1000 ∧
    (meGET [("auth_token", .signed expiredPayload "secret")] (some "secret") 1000).status
        = 401 ∧
    (meGET [("auth_token", .signed expiredPayload "secret")] (some "secret") 1000).user
        = none :=
  ⟨by decide, by decide,
    (cookie_stores_token_verbatim_and_expiry_enforced_on_read "secret" 1500 1000
      expiredPayload (by decide) (by decide)).2.1,
    (cookie_stores_token_verbatim_and_expiry_enforced_on_read "secret" 1500 1000
      expiredPayload (by decide) (by decide)).2.2⟩

end MomentumAuth
